import Mathlib

/-!
# ozone-wayland: the Wayland dispatcher (`wayland/dispatcher.cc`)

A shallow embedding of `WaylandDispatcher`: the dispatcher object is a record of
its member variables, every member function is a function from the record (and
its arguments) to the updated record together with the tasks it posted, and the
two protocol loops (`HandleFlush`, `DisplayRun`) are functions from a script of
results returned by the Wayland connection and by `epoll_wait` to the list of
calls they make.
-/

namespace ozonewayland

/-! ## Collaborator data -/

/-- The values of `ui::EventType` the dispatcher constructs. -/
inductive EventType
  | ET_MOUSE_MOVED
  | ET_MOUSE_PRESSED
  | ET_MOUSE_RELEASED
  | ET_MOUSEWHEEL
  | ET_MOUSE_ENTERED
  | ET_MOUSE_EXITED
  | ET_KEY_PRESSED
  | ET_KEY_RELEASED
  deriving DecidableEq

/-- The class `gfx::Point`, a pair of `int` coordinates. -/
structure Point where
  x : Int
  y : Int
  deriving DecidableEq

/-- The class `ui::MouseEvent(type, location, root_location, flags)`. -/
structure MouseEvent where
  type : EventType
  location : Point
  root_location : Point
  flags : Int
  deriving DecidableEq

/-- The `ui::Event` values the dispatcher constructs: a `ui::MouseEvent`, a
`ui::MouseWheelEvent(mouse_event, x_offset, y_offset)` and a
`ui::KeyEvent(type, key_code, flags, is_char)`. -/
inductive Event
  | Mouse (ev : MouseEvent)
  | MouseWheel (mouseev : MouseEvent) (x_offset y_offset : Int)
  | Key (type : EventType) (key_code : Nat) (flags : Int) (is_char : Bool)
  deriving DecidableEq

/-- Collaborators of the notifiers that are not part of `dispatcher.cc`, over the
carrier `F` of C++ `float` values: `toInt` is the implicit `float` to `int`
conversion applied where a `float` argument is passed to `gfx::Point(int, int)`
or to the offsets of `ui::MouseWheelEvent`, and `KeyboardCodeFromXKeysym` is the
function of `ozone/wayland/input/kbd_conversion.h`. -/
structure Collaborators (F : Type) where
  toInt : F → Int
  KeyboardCodeFromXKeysym : Nat → Nat

/-- The implicit conversion of an `unsigned` (32 bit) value to `int`. -/
def unsignedToInt (n : Nat) : Int :=
  if n % 2 ^ 32 < 2 ^ 31 then ((n % 2 ^ 32 : Nat) : Int)
  else ((n % 2 ^ 32 : Nat) : Int) - 2 ^ 32

/-- The IPC messages sent to the process main thread (bridged mode). -/
inductive Message (F : Type)
  | WaylandInput_MotionNotify (x y : F)
  | WaylandInput_ButtonNotify (handle : Nat) (state flags : Int) (x y : F)
  | WaylandInput_AxisNotify (x y xoffset yoffset : F)
  | WaylandInput_PointerEnter (handle : Nat) (x y : F)
  | WaylandInput_PointerLeave (handle : Nat) (x y : F)
  | WaylandInput_KeyNotify (type code modifiers : Nat)
  | WaylandInput_OutputSize (width height : Nat)
  | WaylandWindow_Resized (handle width height : Nat)
  deriving DecidableEq

/-- The closures bound with `base::Bind` and posted through `PostTaskOnMainLoop`:
each constructor is the static member function bound, with its bound arguments
(the `this` argument of the `Notify*` functions is the dispatcher the closure is
run against). -/
inductive Closure (F : Type)
  | SendMotionNotify (x y : F)
  | SendButtonNotify (handle : Nat) (state flags : Int) (x y : F)
  | SendAxisNotify (x y xoffset yoffset : F)
  | SendPointerEnter (handle : Nat) (x y : F)
  | SendPointerLeave (handle : Nat) (x y : F)
  | SendKeyNotify (type code modifiers : Nat)
  | SendOutputSizeChanged (width height : Nat)
  | SendWindowResized (handle width height : Nat)
  | NotifyPointerEnter (handle : Nat)
  | NotifyPointerLeave (handle : Nat)
  | NotifyButtonPress (handle : Nat)
  | NotifyWindowResized (handle width height : Nat)
  | DispatchEventHelper (key : Event)
  deriving DecidableEq

/-- The closures posted by `PostTask` onto the dispatcher's own thread. -/
inductive ThreadClosure
  | HandleFlush
  | DisplayRun
  deriving DecidableEq

/-- The enumeration `WaylandDispatcher::Task`, the argument of `PostTask`. -/
inductive Task
  | Flush
  | Poll
  deriving DecidableEq

/-- One call of `PostTask` on a message loop proxy: `onLoop l c` is
`loop_->message_loop_proxy()->PostTask(c)` with `loop_` the loop `l`, and
`onThread c` is `message_loop_proxy()->PostTask(c)` on the thread of the
dispatcher itself. -/
inductive Posted (F : Type)
  | onLoop (loop : Nat) (task : Closure F)
  | onThread (task : ThreadClosure)
  deriving DecidableEq

/-- What running a posted closure does to the collaborators: a message sent with
`thread->Send`, an event handed to `MessagePumpOzone::Current()->Dispatch`, or a
callback of the window observer `observer`. -/
inductive Effect (F : Type)
  | Send (msg : Message F)
  | Dispatch (ev : Event)
  | OnWindowEnter (observer handle : Nat)
  | OnWindowLeave (observer handle : Nat)
  | OnWindowFocused (observer handle : Nat)
  | OnWindowResized (observer handle width height : Nat)
  deriving DecidableEq

/-! ## The dispatcher object -/

/-- The member variables of `WaylandDispatcher`. A message loop and an observer
are identified by a number, `none` is the `NULL` pointer. The field
`thread_running_` is the state of the base class `base::Thread` that `IsRunning()`
reports. -/
structure WaylandDispatcher where
  ignore_task_ : Bool
  running : Bool
  loop_ : Option Nat
  epoll_fd_ : Int
  display_fd_ : Int
  observer_ : Option Nat
  thread_running_ : Bool
  deriving DecidableEq

/-- The member `base::Thread::IsRunning()`. -/
def IsRunning (d : WaylandDispatcher) : Bool := d.thread_running_

/-- The member `base::Thread::Stop()`: the thread is joined and no longer runs. -/
def Stop (d : WaylandDispatcher) : WaylandDispatcher :=
  { d with thread_running_ := false }

/-- The result of a member function: the dispatcher afterwards and the tasks
posted, in the order of posting. -/
abbrev Step (F : Type) := WaylandDispatcher × List (Posted F)

/-- The member `WaylandDispatcher::PostTaskOnMainLoop` (lines 282-289). -/
def PostTaskOnMainLoop {F : Type} (d : WaylandDispatcher) (task : Closure F) : Step F :=
  if d.ignore_task_ || !IsRunning d || d.loop_.isNone then (d, [])
  else
    match d.loop_ with
    | some l => (d, [Posted.onLoop l task])
    | none => (d, [])

/-- Two member-function calls in sequence. -/
def Step.andThen {F : Type} (s : Step F) (f : WaylandDispatcher → Step F) : Step F :=
  let r := f s.1
  (r.1, s.2 ++ r.2)

/-- The member `WaylandDispatcher::MotionNotify` (lines 79-97). -/
def MotionNotify {F : Type} (c : Collaborators F) (d : WaylandDispatcher) (x y : F) : Step F :=
  if d.epoll_fd_ ≠ 0 then
    if !d.running then (d, [])
    else PostTaskOnMainLoop d (Closure.SendMotionNotify x y)
  else
    let mouseev : MouseEvent :=
      ⟨EventType.ET_MOUSE_MOVED, ⟨c.toInt x, c.toInt y⟩, ⟨c.toInt x, c.toInt y⟩, 0⟩
    PostTaskOnMainLoop d (Closure.DispatchEventHelper (Event.Mouse mouseev))

/-- The member `WaylandDispatcher::ButtonNotify` (lines 99-129). -/
def ButtonNotify {F : Type} (c : Collaborators F) (d : WaylandDispatcher)
    (handle : Nat) (state flags : Int) (x y : F) : Step F :=
  if d.epoll_fd_ ≠ 0 then
    if !d.running then (d, [])
    else PostTaskOnMainLoop d (Closure.SendButtonNotify handle state flags x y)
  else
    let type : EventType :=
      if state = 1 then EventType.ET_MOUSE_PRESSED else EventType.ET_MOUSE_RELEASED
    let mouseev : MouseEvent :=
      ⟨type, ⟨c.toInt x, c.toInt y⟩, ⟨c.toInt x, c.toInt y⟩, flags⟩
    (PostTaskOnMainLoop d (Closure.NotifyButtonPress handle)).andThen fun d1 =>
      PostTaskOnMainLoop d1 (Closure.DispatchEventHelper (Event.Mouse mouseev))

/-- The member `WaylandDispatcher::AxisNotify` (lines 131-155). -/
def AxisNotify {F : Type} (c : Collaborators F) (d : WaylandDispatcher)
    (x y xoffset yoffset : F) : Step F :=
  if d.epoll_fd_ ≠ 0 then
    if !d.running then (d, [])
    else PostTaskOnMainLoop d (Closure.SendAxisNotify x y xoffset yoffset)
  else
    let mouseev : MouseEvent :=
      ⟨EventType.ET_MOUSEWHEEL, ⟨c.toInt x, c.toInt y⟩, ⟨c.toInt x, c.toInt y⟩, 0⟩
    let wheelev : Event := Event.MouseWheel mouseev (c.toInt xoffset) (c.toInt yoffset)
    PostTaskOnMainLoop d (Closure.DispatchEventHelper wheelev)

/-- The member `WaylandDispatcher::PointerEnter` (lines 157-177). -/
def PointerEnter {F : Type} (c : Collaborators F) (d : WaylandDispatcher)
    (handle : Nat) (x y : F) : Step F :=
  if d.epoll_fd_ ≠ 0 then
    if !d.running then (d, [])
    else PostTaskOnMainLoop d (Closure.SendPointerEnter handle x y)
  else
    let mouseev : MouseEvent :=
      ⟨EventType.ET_MOUSE_ENTERED, ⟨c.toInt x, c.toInt y⟩, ⟨c.toInt x, c.toInt y⟩,
        unsignedToInt handle⟩
    (PostTaskOnMainLoop d (Closure.NotifyPointerEnter handle)).andThen fun d1 =>
      PostTaskOnMainLoop d1 (Closure.DispatchEventHelper (Event.Mouse mouseev))

/-- The member `WaylandDispatcher::PointerLeave` (lines 179-200). -/
def PointerLeave {F : Type} (c : Collaborators F) (d : WaylandDispatcher)
    (handle : Nat) (x y : F) : Step F :=
  if d.epoll_fd_ ≠ 0 then
    if !d.running then (d, [])
    else PostTaskOnMainLoop d (Closure.SendPointerLeave handle x y)
  else
    let mouseev : MouseEvent :=
      ⟨EventType.ET_MOUSE_EXITED, ⟨c.toInt x, c.toInt y⟩, ⟨c.toInt x, c.toInt y⟩, 0⟩
    (PostTaskOnMainLoop d (Closure.NotifyPointerLeave handle)).andThen fun d1 =>
      PostTaskOnMainLoop d1 (Closure.DispatchEventHelper (Event.Mouse mouseev))

/-- The member `WaylandDispatcher::KeyNotify` (lines 202-227). -/
def KeyNotify {F : Type} (c : Collaborators F) (d : WaylandDispatcher)
    (state code modifiers : Nat) : Step F :=
  if d.epoll_fd_ ≠ 0 then
    if !d.running then (d, [])
    else PostTaskOnMainLoop d (Closure.SendKeyNotify state code modifiers)
  else
    let type : EventType :=
      if state ≠ 0 then EventType.ET_KEY_PRESSED else EventType.ET_KEY_RELEASED
    let keyev : Event :=
      Event.Key type (c.KeyboardCodeFromXKeysym code) (unsignedToInt modifiers) true
    PostTaskOnMainLoop d (Closure.DispatchEventHelper keyev)

/-- The member `WaylandDispatcher::OutputSizeChanged` (lines 229-236). -/
def OutputSizeChanged {F : Type} (d : WaylandDispatcher) (width height : Nat) : Step F :=
  if !d.running || d.epoll_fd_ = 0 then (d, [])
  else PostTaskOnMainLoop d (Closure.SendOutputSizeChanged width height)

/-- The member `WaylandDispatcher::WindowResized` (lines 238-253). -/
def WindowResized {F : Type} (d : WaylandDispatcher) (handle width height : Nat) : Step F :=
  if d.epoll_fd_ ≠ 0 then
    if !d.running then (d, [])
    else PostTaskOnMainLoop d (Closure.SendWindowResized handle width height)
  else
    PostTaskOnMainLoop d (Closure.NotifyWindowResized handle width height)

/-- The member `WaylandDispatcher::PostTask` (lines 255-275); `current` is what
`base::MessageLoop::current()` returns on the calling thread. -/
def PostTask {F : Type} (current : Option Nat) (d : WaylandDispatcher) (type : Task) : Step F :=
  if !IsRunning d || d.ignore_task_ then (d, [])
  else
    match type with
    | Task.Flush => (d, [Posted.onThread ThreadClosure.HandleFlush])
    | Task.Poll =>
      if d.epoll_fd_ ≠ 0 then
        let d1 : WaylandDispatcher := { d with loop_ := current }
        if !d1.running then (d1, [Posted.onThread ThreadClosure.DisplayRun])
        else (d1, [])
      else (d, [])

/-- The member `WaylandDispatcher::DispatchEvent` (lines 277-280). -/
def DispatchEvent {F : Type} (d : WaylandDispatcher) (event : Event) : Step F :=
  PostTaskOnMainLoop d (Closure.DispatchEventHelper event)

/-- The three assignments that open both the destructor (lines 317-319) and the
body of `MessageLoopDestroyed` (lines 485-487). -/
def latchAndClear (d : WaylandDispatcher) : WaylandDispatcher :=
  { d with ignore_task_ := true, loop_ := none, running := false }

/-- The member `WaylandDispatcher::MessageLoopDestroyed` (lines 480-489). -/
def MessageLoopDestroyed (d : WaylandDispatcher) : WaylandDispatcher :=
  if !IsRunning d then d
  else Stop (latchAndClear d)

/-- The destructor (lines 315-328); the second component tells whether
`close(epoll_fd_)` was called. -/
def Destroy (d : WaylandDispatcher) : WaylandDispatcher × Bool :=
  let d1 := Stop (latchAndClear d)
  if d1.epoll_fd_ ≠ 0 then ({ d1 with epoll_fd_ := 0 }, true)
  else (d1, false)

/-- Running a posted closure on the target loop against the dispatcher `d`
(lines 395-478). `GetProcessMainThread()` and `MessagePumpOzone::Current()` are
taken to return an object, as the `DCHECK`s of lines 26-27 require. -/
def runClosure {F : Type} (d : WaylandDispatcher) : Closure F → List (Effect F)
  | Closure.SendMotionNotify x y => [Effect.Send (Message.WaylandInput_MotionNotify x y)]
  | Closure.SendButtonNotify handle state flags x y =>
      [Effect.Send (Message.WaylandInput_ButtonNotify handle state flags x y)]
  | Closure.SendAxisNotify x y xoffset yoffset =>
      [Effect.Send (Message.WaylandInput_AxisNotify x y xoffset yoffset)]
  | Closure.SendPointerEnter handle x y =>
      [Effect.Send (Message.WaylandInput_PointerEnter handle x y)]
  | Closure.SendPointerLeave handle x y =>
      [Effect.Send (Message.WaylandInput_PointerLeave handle x y)]
  | Closure.SendKeyNotify type code modifiers =>
      [Effect.Send (Message.WaylandInput_KeyNotify type code modifiers)]
  | Closure.SendOutputSizeChanged width height =>
      [Effect.Send (Message.WaylandInput_OutputSize width height)]
  | Closure.SendWindowResized handle width height =>
      [Effect.Send (Message.WaylandWindow_Resized handle width height)]
  | Closure.NotifyPointerEnter handle =>
      match d.observer_ with
      | some o => [Effect.OnWindowEnter o handle]
      | none => []
  | Closure.NotifyPointerLeave handle =>
      match d.observer_ with
      | some o => [Effect.OnWindowLeave o handle]
      | none => []
  | Closure.NotifyButtonPress handle =>
      match d.observer_ with
      | some o => [Effect.OnWindowFocused o handle]
      | none => []
  | Closure.NotifyWindowResized handle width height =>
      match d.observer_ with
      | some o => [Effect.OnWindowResized o handle width height]
      | none => []
  | Closure.DispatchEventHelper key => [Effect.Dispatch key]

/-- A call of one of the eight input notifiers, with its arguments. -/
inductive NotifierCall (F : Type)
  | Motion (x y : F)
  | Button (handle : Nat) (state flags : Int) (x y : F)
  | Axis (x y xoffset yoffset : F)
  | Enter (handle : Nat) (x y : F)
  | Leave (handle : Nat) (x y : F)
  | Key (state code modifiers : Nat)
  | OutputSize (width height : Nat)
  | Resized (handle width height : Nat)
  deriving DecidableEq

/-- Performing a notifier call on the dispatcher. -/
def notify {F : Type} (c : Collaborators F) (d : WaylandDispatcher) : NotifierCall F → Step F
  | NotifierCall.Motion x y => MotionNotify c d x y
  | NotifierCall.Button handle state flags x y => ButtonNotify c d handle state flags x y
  | NotifierCall.Axis x y xoffset yoffset => AxisNotify c d x y xoffset yoffset
  | NotifierCall.Enter handle x y => PointerEnter c d handle x y
  | NotifierCall.Leave handle x y => PointerLeave c d handle x y
  | NotifierCall.Key state code modifiers => KeyNotify c d state code modifiers
  | NotifierCall.OutputSize width height => OutputSizeChanged d width height
  | NotifierCall.Resized handle width height => WindowResized d handle width height

/-- Performing a sequence of notifier calls, one after the other. -/
def notifyAll {F : Type} (c : Collaborators F) (d : WaylandDispatcher) :
    List (NotifierCall F) → Step F
  | [] => (d, [])
  | n :: ns => (notify c d n).andThen fun d1 => notifyAll c d1 ns

/-! ## Construction -/

/-- Constants of `<errno.h>`, `<fcntl.h>` and `<sys/epoll.h>` (Linux values). -/
def EINVAL : Int := 22
/-- The constant `EAGAIN` of `<errno.h>`. -/
def EAGAIN : Int := 11
/-- The constant `FD_CLOEXEC` of `<fcntl.h>`. -/
def FD_CLOEXEC : Nat := 1
/-- The constant `EPOLLIN` of `<sys/epoll.h>`. -/
def EPOLLIN : Nat := 1
/-- The constant `EPOLLOUT` of `<sys/epoll.h>`. -/
def EPOLLOUT : Nat := 4
/-- The constant `EPOLLERR` of `<sys/epoll.h>`. -/
def EPOLLERR : Nat := 8
/-- The constant `EPOLLHUP` of `<sys/epoll.h>`. -/
def EPOLLHUP : Nat := 16

/-- The system calls of the os-compatibility functions and of the constructor. -/
inductive OsCall
  | epoll_create1
  | epoll_create
  | fcntl_getfd (fd : Int)
  | fcntl_setfd (fd : Int) (flags : Nat)
  | close (fd : Int)
  | epoll_ctl_add (epfd fd : Int) (events : Nat)
  deriving DecidableEq

/-- The results the operating system gives to the calls of `osEpollCreateCloExec`:
whether the macro `EPOLL_CLOEXEC` is defined, the result of `epoll_create1` and
the `errno` it leaves on failure, and the results of `epoll_create` and of the two
`fcntl` calls. -/
structure OsScript where
  has_cloexec : Bool
  epoll_create1 : Int
  errno_create1 : Int
  epoll_create : Int
  fcntl_getfd : Int
  fcntl_setfd : Int
  deriving DecidableEq

/-- The function `setCloExecOrClose` (lines 40-59): the value returned and the
system calls made. -/
def setCloExecOrClose (s : OsScript) (fd : Int) : Int × List OsCall :=
  if fd = -1 then (-1, [])
  else if s.fcntl_getfd = -1 then
    (-1, [OsCall.fcntl_getfd fd, OsCall.close fd])
  else if s.fcntl_setfd = -1 then
    (-1, [OsCall.fcntl_getfd fd,
          OsCall.fcntl_setfd fd (s.fcntl_getfd.toNat ||| FD_CLOEXEC), OsCall.close fd])
  else
    (fd, [OsCall.fcntl_getfd fd,
          OsCall.fcntl_setfd fd (s.fcntl_getfd.toNat ||| FD_CLOEXEC)])

/-- The function `osEpollCreateCloExec` (lines 61-75): the value returned and the
system calls made. -/
def osEpollCreateCloExec (s : OsScript) : Int × List OsCall :=
  if s.has_cloexec then
    if s.epoll_create1 ≥ 0 then (s.epoll_create1, [OsCall.epoll_create1])
    else if s.errno_create1 ≠ EINVAL then (-1, [OsCall.epoll_create1])
    else
      let r := setCloExecOrClose s s.epoll_create
      (r.1, [OsCall.epoll_create1, OsCall.epoll_create] ++ r.2)
  else
    let r := setCloExecOrClose s s.epoll_create
    (r.1, OsCall.epoll_create :: r.2)

/-- The constructor `WaylandDispatcher::WaylandDispatcher(int fd)` (lines 291-313):
`current` is what `base::MessageLoop::current()` returns and `started` is whether
`StartWithOptions` started the thread. -/
def WaylandDispatcher.create (s : OsScript) (current : Option Nat) (started : Bool) (fd : Int) :
    WaylandDispatcher × List OsCall :=
  let d0 : WaylandDispatcher :=
    { ignore_task_ := false, running := false, loop_ := none, epoll_fd_ := 0,
      display_fd_ := fd, observer_ := none, thread_running_ := false }
  let r : WaylandDispatcher × List OsCall :=
    if d0.display_fd_ ≠ 0 then
      let e := osEpollCreateCloExec s
      ({ d0 with epoll_fd_ := e.1 },
        e.2 ++ [OsCall.epoll_ctl_add e.1 d0.display_fd_ (EPOLLIN ||| EPOLLOUT)])
    else (d0, [])
  ({ r.1 with loop_ := current, thread_running_ := started }, r.2)

/-! ## The protocol loops -/

/-- The calls the two loops make on the Wayland connection and on the
multiplexer. -/
inductive WlCall
  | wl_display_prepare_read
  | wl_display_dispatch_pending
  | wl_display_flush
  | wl_display_read_events
  | wl_display_dispatch
  | epoll_ctl_mod (epfd fd : Int) (events : Nat)
  | epoll_wait (epfd : Int)
  deriving DecidableEq

/-- The member `WaylandDispatcher::HandleFlush` (lines 330-340) over the scripted
results of the successive `wl_display_prepare_read` calls: the calls made, or
`none` when the script ends while the loop of line 334 is still running. -/
def HandleFlush : List Int → Option (List WlCall)
  | [] => none
  | r :: rs =>
    if r ≠ 0 then
      (HandleFlush rs).map fun t =>
        WlCall.wl_display_prepare_read :: WlCall.wl_display_dispatch_pending :: t
    else
      some [WlCall.wl_display_prepare_read, WlCall.wl_display_flush,
            WlCall.wl_display_read_events, WlCall.wl_display_dispatch_pending]

/-- The result of one `wl_display_flush`: the value returned and the `errno` it
leaves when it fails. -/
structure FlushResult where
  ret : Int
  errno : Int
  deriving DecidableEq

/-- One entry `ep[i]` of the array filled by `epoll_wait`, with the results the
connection gives if the body of the `for` loop calls `wl_display_dispatch` and
`wl_display_flush` for it. -/
structure ReadyEvent where
  events : Nat
  dispatch : Int
  flush : FlushResult
  deriving DecidableEq

/-- The scripted results of one iteration of the `while` loop of `DisplayRun`:
whether `data->running` has been cleared by a teardown on another thread when
line 354 reads it, the result of the flush of line 357, and the entries
`ep[0] .. ep[count-1]` that `epoll_wait` reports (none when `count <= 0`). -/
structure Iteration where
  stopped : Bool
  flush : FlushResult
  ready : List ReadyEvent
  deriving DecidableEq

/-- How a run of `DisplayRun` over a script ends: the function has left its loop
(`break` or `return`), or the script is used up with the loop still running. -/
inductive Outcome
  | exited
  | looping
  deriving DecidableEq

/-- The body of the `for` loop of `DisplayRun` for one ready event (lines
367-390): the calls made, and whether the function returns. -/
def handleReady (d : WaylandDispatcher) (e : ReadyEvent) : List WlCall × Bool :=
  if e.events &&& EPOLLERR ≠ 0 ∨ e.events &&& EPOLLHUP ≠ 0 then ([], true)
  else
    let r : List WlCall × Bool :=
      if e.events &&& EPOLLIN ≠ 0 then ([WlCall.wl_display_dispatch], decide (e.dispatch = -1))
      else ([], false)
    if r.2 then r
    else if e.events &&& EPOLLOUT ≠ 0 then
      if e.flush.ret = 0 then
        (r.1 ++ [WlCall.wl_display_flush,
                 WlCall.epoll_ctl_mod d.epoll_fd_ d.display_fd_
                   (EPOLLIN ||| EPOLLERR ||| EPOLLHUP)], false)
      else if e.flush.ret = -1 ∧ e.flush.errno ≠ EAGAIN then
        (r.1 ++ [WlCall.wl_display_flush], true)
      else (r.1 ++ [WlCall.wl_display_flush], false)
    else r

/-- The `for` loop of `DisplayRun` over the ready events (lines 366-391): the
calls made, and whether the function returned from inside the loop. -/
def forEachReady (d : WaylandDispatcher) : List ReadyEvent → List WlCall × Bool
  | [] => ([], false)
  | e :: es =>
    let r := handleReady d e
    if r.2 then r
    else
      let rest := forEachReady d es
      (r.1 ++ rest.1, rest.2)

/-- Lines 357-363 of `DisplayRun`: the flush before waiting. The calls made, and
whether the loop is left by the `break` of line 362. -/
def flushBeforeWait (d : WaylandDispatcher) (f : FlushResult) : List WlCall × Bool :=
  if f.ret < 0 ∧ f.errno = EAGAIN then
    ([WlCall.wl_display_flush,
      WlCall.epoll_ctl_mod d.epoll_fd_ d.display_fd_
        (EPOLLIN ||| EPOLLOUT ||| EPOLLERR ||| EPOLLHUP)], false)
  else if f.ret < 0 then ([WlCall.wl_display_flush], true)
  else ([WlCall.wl_display_flush], false)

/-- The `while (1)` loop of `DisplayRun` (lines 350-392) over the scripted
iterations, for a dispatcher whose `running` flag is set. -/
def displayLoop (d : WaylandDispatcher) : List Iteration → WaylandDispatcher × List WlCall × Outcome
  | [] => (d, [], Outcome.looping)
  | it :: its =>
    if it.stopped then
      ({ d with running := false }, [WlCall.wl_display_dispatch_pending], Outcome.exited)
    else
      let f := flushBeforeWait d it.flush
      if f.2 then (d, WlCall.wl_display_dispatch_pending :: f.1, Outcome.exited)
      else
        let r := forEachReady d it.ready
        let head := WlCall.wl_display_dispatch_pending :: f.1 ++ [WlCall.epoll_wait d.epoll_fd_]
        if r.2 then (d, head ++ r.1, Outcome.exited)
        else
          let rest := displayLoop d its
          (rest.1, head ++ r.1 ++ rest.2.1, rest.2.2)

/-- The static member `WaylandDispatcher::DisplayRun(data)` (lines 342-393): the
dispatcher afterwards, the calls made, and how the run ends. -/
def DisplayRun (data : WaylandDispatcher) (script : List Iteration) :
    WaylandDispatcher × List WlCall × Outcome :=
  displayLoop { data with running := true } script

/-- The interest mask registered for the display descriptor after a list of
calls, starting from `interest`, when every `epoll_ctl` takes effect. -/
def registeredInterest (interest : Nat) : List WlCall → Nat
  | [] => interest
  | WlCall.epoll_ctl_mod _ _ events :: t => registeredInterest events t
  | _ :: t => registeredInterest interest t

/-! ## Running the posted tasks, sequences of requests, and the properties stated -/

/-- The public entry points are no-ops on `d`: each of the eight notifiers,
`DispatchEvent` and `PostTask` (for `Flush` and for `Poll`, whatever the message
loop of the caller) posts no task and returns the dispatcher with every field
unchanged. -/
def EntryPointsAreNoOps {F : Type} (c : Collaborators F) (d : WaylandDispatcher) : Prop :=
  (∀ n : NotifierCall F, notify c d n = (d, [])) ∧
  (∀ event : Event, DispatchEvent (F := F) d event = (d, [])) ∧
  (∀ current : Option Nat, PostTask (F := F) current d Task.Flush = (d, [])) ∧
  (∀ current : Option Nat, PostTask (F := F) current d Task.Poll = (d, []))

/-- The message of the kind matching a notifier call, whose fields are the
arguments of the call in the same order (the statement of the round trip). -/
def matchingMessage {F : Type} : NotifierCall F → Message F
  | NotifierCall.Motion x y => Message.WaylandInput_MotionNotify x y
  | NotifierCall.Button handle state flags x y =>
      Message.WaylandInput_ButtonNotify handle state flags x y
  | NotifierCall.Axis x y xoffset yoffset => Message.WaylandInput_AxisNotify x y xoffset yoffset
  | NotifierCall.Enter handle x y => Message.WaylandInput_PointerEnter handle x y
  | NotifierCall.Leave handle x y => Message.WaylandInput_PointerLeave handle x y
  | NotifierCall.Key state code modifiers => Message.WaylandInput_KeyNotify state code modifiers
  | NotifierCall.OutputSize width height => Message.WaylandInput_OutputSize width height
  | NotifierCall.Resized handle width height => Message.WaylandWindow_Resized handle width height

/-- The target loop running the closures posted on it, in the order of posting,
against the dispatcher `d`; a closure posted on the dispatcher thread is not run
by the loop. -/
def runPosted {F : Type} (d : WaylandDispatcher) : List (Posted F) → List (Effect F)
  | [] => []
  | Posted.onLoop _ task :: ps => runClosure d task ++ runPosted d ps
  | Posted.onThread _ :: ps => runPosted d ps

/-- The observer callbacks made when a `Notify*` closure runs: the one given when
an observer is registered, none otherwise. -/
def observerCall {F : Type} (d : WaylandDispatcher) (call : Nat → Effect F) : List (Effect F) :=
  match d.observer_ with
  | some o => [call o]
  | none => []

/-- A sequence of "begin polling" requests: `PostTask(Poll)` called once for each
element of the list, which gives the message loop of the calling thread. -/
def pollRequests {F : Type} (d : WaylandDispatcher) : List (Option Nat) → Step F
  | [] => (d, [])
  | current :: rest =>
    (PostTask current d Task.Poll).andThen fun d1 => pollRequests d1 rest

/-- The calls of `k` rounds of the loop of line 334 whose `wl_display_prepare_read`
returned non-zero: each round is that call followed by one
`wl_display_dispatch_pending`. -/
def drainRounds : Nat → List WlCall
  | 0 => []
  | k + 1 =>
    WlCall.wl_display_prepare_read :: WlCall.wl_display_dispatch_pending :: drainRounds k

/-! ## Concrete inputs -/

/-- Collaborators over `F = Int`: coordinates that are already integral and a key
table that maps every keysym to itself. -/
def intCollaborators : Collaborators Int :=
  { toInt := fun x => x, KeyboardCodeFromXKeysym := fun k => k }

/-- An operating system on which `epoll_create1` succeeds with descriptor 7. -/
def osGood : OsScript :=
  { has_cloexec := true, epoll_create1 := 7, errno_create1 := 0,
    epoll_create := 0, fcntl_getfd := 0, fcntl_setfd := 0 }

/-- An operating system on which `epoll_create1` fails with `ENFILE` (23). -/
def osNoDescriptors : OsScript :=
  { has_cloexec := true, epoll_create1 := -1, errno_create1 := 23,
    epoll_create := -1, fcntl_getfd := -1, fcntl_setfd := -1 }

/-- A dispatcher constructed without a socket (direct mode) on a thread whose
message loop is loop 0, with its thread started. -/
def directDispatcher : WaylandDispatcher :=
  (WaylandDispatcher.create osGood (some 0) true 0).1

/-- A dispatcher constructed on socket 5 (bridged mode) on a thread whose message
loop is loop 0, with its thread started. -/
def bridgedDispatcher : WaylandDispatcher :=
  (WaylandDispatcher.create osGood (some 0) true 5).1

/-! ## Posting -/

/-- Posting with the latch set posts nothing. -/
theorem PostTaskOnMainLoop_latched {F : Type} (d : WaylandDispatcher) (task : Closure F)
    (h : d.ignore_task_ = true) : PostTaskOnMainLoop d task = (d, []) := by
  simp [PostTaskOnMainLoop, h]

/-- Posting with the three preconditions met posts the closure on `loop_`. -/
theorem PostTaskOnMainLoop_ready {F : Type} (d : WaylandDispatcher) (task : Closure F) (l : Nat)
    (h_latch : d.ignore_task_ = false) (h_thread : IsRunning d = true)
    (h_loop : d.loop_ = some l) :
    PostTaskOnMainLoop d task = (d, [Posted.onLoop l task]) := by
  simp [PostTaskOnMainLoop, h_latch, h_thread, h_loop]

/-- In bridged mode with `running` false, one notifier call posts nothing and
leaves the dispatcher as it is. -/
theorem notify_bridged_not_running {F : Type} (c : Collaborators F) (d : WaylandDispatcher)
    (h_epoll : d.epoll_fd_ ≠ 0) (h_run : d.running = false) (n : NotifierCall F) :
    notify c d n = (d, []) := by
  cases n <;>
    simp [notify, MotionNotify, ButtonNotify, AxisNotify, PointerEnter, PointerLeave,
      KeyNotify, OutputSizeChanged, WindowResized, h_epoll, h_run]

/-- With the latch set, one notifier call posts nothing and leaves the dispatcher
as it is. -/
theorem notify_latched {F : Type} (c : Collaborators F) (d : WaylandDispatcher)
    (h : d.ignore_task_ = true) (n : NotifierCall F) :
    notify c d n = (d, []) := by
  cases n <;>
    simp only [notify, MotionNotify, ButtonNotify, AxisNotify, PointerEnter, PointerLeave,
      KeyNotify, OutputSizeChanged, WindowResized, Step.andThen,
      PostTaskOnMainLoop_latched _ _ h] <;>
    split_ifs <;> simp

/-! ## C1 -/

/-- C1 (as stated, refuted): a dispatcher constructed in direct mode has
`running` false, and `MotionNotify(1, 2)` on it posts a task on the target loop. -/
theorem C1_direct_mode_posts_before_running :
    directDispatcher.running = false ∧
    notifyAll intCollaborators directDispatcher [NotifierCall.Motion 1 2] =
      (directDispatcher,
        [Posted.onLoop 0 (Closure.DispatchEventHelper
          (Event.Mouse ⟨EventType.ET_MOUSE_MOVED, ⟨1, 2⟩, ⟨1, 2⟩, 0⟩))]) := by
  decide

/-- C1 (amended): in a dispatcher whose `running` flag is false, every sequence
of notifier calls in bridged mode (`epoll_fd_` non-zero) posts no task and leaves
the dispatcher unchanged, and `OutputSizeChanged` posts no task in either mode. -/
theorem C1_no_post_before_running {F : Type} (c : Collaborators F) (d : WaylandDispatcher)
    (h_run : d.running = false) :
    (d.epoll_fd_ ≠ 0 → ∀ ns : List (NotifierCall F), notifyAll c d ns = (d, [])) ∧
    (∀ width height : Nat, OutputSizeChanged (F := F) d width height = (d, [])) := by
  refine ⟨fun h_epoll ns => ?_, fun width height => ?_⟩
  · induction ns with
    | nil => rfl
    | cons n ns ih =>
      simp [notifyAll, Step.andThen, notify_bridged_not_running c d h_epoll h_run n, ih]
  · simp [OutputSizeChanged, h_run]

/-- C1, at a concrete input: the dispatcher constructed on socket 5. -/
theorem C1_no_post_before_running_witness :
    bridgedDispatcher.running = false ∧
    ((bridgedDispatcher.epoll_fd_ ≠ 0 → ∀ ns : List (NotifierCall Int),
        notifyAll intCollaborators bridgedDispatcher ns = (bridgedDispatcher, [])) ∧
     (∀ width height : Nat,
        OutputSizeChanged (F := Int) bridgedDispatcher width height = (bridgedDispatcher, []))) :=
  ⟨by decide, C1_no_post_before_running intCollaborators bridgedDispatcher (by decide)⟩

/-! ## C2 -/

/-- With the latch set every public entry point is a no-op. -/
theorem entryPoints_latched {F : Type} (c : Collaborators F) (d : WaylandDispatcher)
    (h : d.ignore_task_ = true) : EntryPointsAreNoOps c d := by
  refine ⟨notify_latched c d h, fun event => ?_, fun current => ?_, fun current => ?_⟩
  · exact PostTaskOnMainLoop_latched d _ h
  · simp [PostTask, h]
  · simp [PostTask, h]

/-- C2: in every state whose latch `ignore_task_` is true, each of the eight
notifiers, `DispatchEvent`, `PostTask(Flush)` and `PostTask(Poll)` posts nothing
and leaves every field unchanged; the state after the first three assignments of
the destructor, and the state after `MessageLoopDestroyed` on a dispatcher whose
thread is started, have `ignore_task_ = true`, `loop_ = NULL` and
`running = false`, and are such states. -/
theorem C2_latched_entry_points_are_noops {F : Type} (c : Collaborators F)
    (d : WaylandDispatcher) (h : d.ignore_task_ = true) :
    EntryPointsAreNoOps c d ∧
    (∀ d0 : WaylandDispatcher,
      (latchAndClear d0).ignore_task_ = true ∧ (latchAndClear d0).loop_ = none ∧
      (latchAndClear d0).running = false ∧ EntryPointsAreNoOps c (latchAndClear d0)) ∧
    (∀ d0 : WaylandDispatcher, IsRunning d0 = true →
      (MessageLoopDestroyed d0).ignore_task_ = true ∧ (MessageLoopDestroyed d0).loop_ = none ∧
      (MessageLoopDestroyed d0).running = false ∧
      EntryPointsAreNoOps c (MessageLoopDestroyed d0)) ∧
    (∀ d0 : WaylandDispatcher,
      (Destroy d0).1.ignore_task_ = true ∧ EntryPointsAreNoOps c (Destroy d0).1) := by
  refine ⟨entryPoints_latched c d h, fun d0 => ⟨rfl, rfl, rfl, ?_⟩, fun d0 h0 => ?_, fun d0 => ?_⟩
  · exact entryPoints_latched c _ rfl
  · have hm : MessageLoopDestroyed d0 = Stop (latchAndClear d0) := by
      simp [MessageLoopDestroyed, h0]
    rw [hm]
    exact ⟨rfl, rfl, rfl, entryPoints_latched c _ rfl⟩
  · have hl : (Destroy d0).1.ignore_task_ = true := by
      simp only [Destroy]
      split_ifs <;> rfl
    exact ⟨hl, entryPoints_latched c _ hl⟩

/-- C2, at a concrete input: the bridged dispatcher after `MessageLoopDestroyed`. -/
theorem C2_latched_entry_points_are_noops_witness :
    (MessageLoopDestroyed bridgedDispatcher).ignore_task_ = true ∧
    EntryPointsAreNoOps intCollaborators (MessageLoopDestroyed bridgedDispatcher) :=
  ⟨by decide,
   (C2_latched_entry_points_are_noops intCollaborators
      (MessageLoopDestroyed bridgedDispatcher) (by decide)).1⟩

/-! ## C3 -/

/-- In bridged mode with `running` true and the posting preconditions met, a
notifier call posts exactly one task on `loop_`, and running that task sends
exactly the matching message. -/
theorem notify_bridged_running {F : Type} (c : Collaborators F) (d : WaylandDispatcher) (l : Nat)
    (h_epoll : d.epoll_fd_ ≠ 0) (h_latch : d.ignore_task_ = false)
    (h_thread : IsRunning d = true) (h_loop : d.loop_ = some l) (h_run : d.running = true)
    (n : NotifierCall F) :
    ∃ task : Closure F, notify c d n = (d, [Posted.onLoop l task]) ∧
      runClosure d task = [Effect.Send (matchingMessage n)] := by
  cases n
  case Motion x y =>
    exact ⟨Closure.SendMotionNotify x y, by
      simp [notify, MotionNotify, h_epoll, h_run,
        PostTaskOnMainLoop_ready d _ l h_latch h_thread h_loop], rfl⟩
  case Button handle state flags x y =>
    exact ⟨Closure.SendButtonNotify handle state flags x y, by
      simp [notify, ButtonNotify, h_epoll, h_run,
        PostTaskOnMainLoop_ready d _ l h_latch h_thread h_loop], rfl⟩
  case Axis x y xoffset yoffset =>
    exact ⟨Closure.SendAxisNotify x y xoffset yoffset, by
      simp [notify, AxisNotify, h_epoll, h_run,
        PostTaskOnMainLoop_ready d _ l h_latch h_thread h_loop], rfl⟩
  case Enter handle x y =>
    exact ⟨Closure.SendPointerEnter handle x y, by
      simp [notify, PointerEnter, h_epoll, h_run,
        PostTaskOnMainLoop_ready d _ l h_latch h_thread h_loop], rfl⟩
  case Leave handle x y =>
    exact ⟨Closure.SendPointerLeave handle x y, by
      simp [notify, PointerLeave, h_epoll, h_run,
        PostTaskOnMainLoop_ready d _ l h_latch h_thread h_loop], rfl⟩
  case Key state code modifiers =>
    exact ⟨Closure.SendKeyNotify state code modifiers, by
      simp [notify, KeyNotify, h_epoll, h_run,
        PostTaskOnMainLoop_ready d _ l h_latch h_thread h_loop], rfl⟩
  case OutputSize width height =>
    exact ⟨Closure.SendOutputSizeChanged width height, by
      simp [notify, OutputSizeChanged, h_epoll, h_run,
        PostTaskOnMainLoop_ready d _ l h_latch h_thread h_loop], rfl⟩
  case Resized handle width height =>
    exact ⟨Closure.SendWindowResized handle width height, by
      simp [notify, WindowResized, h_epoll, h_run,
        PostTaskOnMainLoop_ready d _ l h_latch h_thread h_loop], rfl⟩

/-- C3: in bridged mode with the latch unset, the thread started and a target
loop present, a notifier call posts no task when `running` is false, and when
`running` is true it posts exactly one task, on the target loop, whose execution
sends exactly one message: the one of the matching kind carrying the arguments of
the call unchanged and in order. -/
theorem C3_bridged_forwarding {F : Type} (c : Collaborators F) (d : WaylandDispatcher) (l : Nat)
    (h_epoll : d.epoll_fd_ ≠ 0) (h_latch : d.ignore_task_ = false)
    (h_thread : IsRunning d = true) (h_loop : d.loop_ = some l) (n : NotifierCall F) :
    (d.running = false → notify c d n = (d, [])) ∧
    (d.running = true →
      ∃ task : Closure F, notify c d n = (d, [Posted.onLoop l task]) ∧
        runClosure d task = [Effect.Send (matchingMessage n)]) :=
  ⟨fun h_run => notify_bridged_not_running c d h_epoll h_run n,
   fun h_run => notify_bridged_running c d l h_epoll h_latch h_thread h_loop h_run n⟩

/-- C3, the scenario: on a dispatcher constructed on socket 5, `MotionNotify(1, 2)`
posts nothing before `DisplayRun` has begun, and once `DisplayRun` has set
`running` it posts one task that sends one motion message with x = 1, y = 2. -/
theorem C3_bridged_forwarding_witness :
    (bridgedDispatcher.epoll_fd_ ≠ 0 ∧ bridgedDispatcher.ignore_task_ = false ∧
      IsRunning bridgedDispatcher = true ∧ bridgedDispatcher.loop_ = some 0) ∧
    notify intCollaborators bridgedDispatcher (NotifierCall.Motion 1 2) =
      (bridgedDispatcher, []) ∧
    (DisplayRun bridgedDispatcher []).1.running = true ∧
    ∃ task : Closure Int,
      notify intCollaborators (DisplayRun bridgedDispatcher []).1 (NotifierCall.Motion 1 2) =
        ((DisplayRun bridgedDispatcher []).1, [Posted.onLoop 0 task]) ∧
      runClosure (DisplayRun bridgedDispatcher []).1 task =
        [Effect.Send (Message.WaylandInput_MotionNotify 1 2)] :=
  ⟨by decide,
   (C3_bridged_forwarding intCollaborators bridgedDispatcher 0 (by decide) (by decide)
      (by decide) (by decide) (NotifierCall.Motion 1 2)).1 (by decide),
   by decide,
   (C3_bridged_forwarding intCollaborators (DisplayRun bridgedDispatcher []).1 0 (by decide)
      (by decide) (by decide) (by decide) (NotifierCall.Motion 1 2)).2 (by decide)⟩

/-! ## C4 -/

/-- C4: in direct mode with an observer registered and the posting preconditions
met, `ButtonNotify(handle, state, flags, x, y)` posts exactly two tasks on the
target loop, in this order: one whose execution calls `OnWindowFocused(handle)` on
the observer once, then one whose execution hands one mouse event to the local
event dispatch; the event carries `flags` and the location `(x, y)`, and is a
button press when `state` is 1 and a button release for every other state. -/
theorem C4_direct_button {F : Type} (c : Collaborators F) (d : WaylandDispatcher) (o l : Nat)
    (h_epoll : d.epoll_fd_ = 0) (h_obs : d.observer_ = some o)
    (h_latch : d.ignore_task_ = false) (h_thread : IsRunning d = true)
    (h_loop : d.loop_ = some l) (handle : Nat) (state flags : Int) (x y : F) :
    ∃ ev : MouseEvent,
      ButtonNotify c d handle state flags x y =
        (d, [Posted.onLoop l (Closure.NotifyButtonPress handle),
             Posted.onLoop l (Closure.DispatchEventHelper (Event.Mouse ev))]) ∧
      runClosure (F := F) d (Closure.NotifyButtonPress handle) =
        [Effect.OnWindowFocused o handle] ∧
      runClosure (F := F) d (Closure.DispatchEventHelper (Event.Mouse ev)) =
        [Effect.Dispatch (Event.Mouse ev)] ∧
      ev.flags = flags ∧
      ev.location = ⟨c.toInt x, c.toInt y⟩ ∧ ev.root_location = ⟨c.toInt x, c.toInt y⟩ ∧
      (state = 1 → ev.type = EventType.ET_MOUSE_PRESSED) ∧
      (state ≠ 1 → ev.type = EventType.ET_MOUSE_RELEASED) := by
  refine ⟨⟨if state = 1 then EventType.ET_MOUSE_PRESSED else EventType.ET_MOUSE_RELEASED,
    ⟨c.toInt x, c.toInt y⟩, ⟨c.toInt x, c.toInt y⟩, flags⟩, ?_, ?_, rfl, rfl, rfl, rfl, ?_, ?_⟩
  · simp [ButtonNotify, h_epoll, Step.andThen,
      PostTaskOnMainLoop_ready d _ l h_latch h_thread h_loop]
  · simp [runClosure, h_obs]
  · intro h; simp [h]
  · intro h; simp [h]

/-- C4, at a concrete input: the direct dispatcher with observer 9 registered
and a button press (state 1) on window 3. -/
theorem C4_direct_button_witness :
    ({ directDispatcher with observer_ := some 9 } : WaylandDispatcher).epoll_fd_ = 0 ∧
    ButtonNotify intCollaborators { directDispatcher with observer_ := some 9 } 3 1 16 10 20 =
      ({ directDispatcher with observer_ := some 9 },
        [Posted.onLoop 0 (Closure.NotifyButtonPress 3),
         Posted.onLoop 0 (Closure.DispatchEventHelper
           (Event.Mouse ⟨EventType.ET_MOUSE_PRESSED, ⟨10, 20⟩, ⟨10, 20⟩, 16⟩))]) ∧
    ∃ ev : MouseEvent,
      ButtonNotify intCollaborators { directDispatcher with observer_ := some 9 } 3 1 16 10 20 =
        ({ directDispatcher with observer_ := some 9 },
          [Posted.onLoop 0 (Closure.NotifyButtonPress 3),
           Posted.onLoop 0 (Closure.DispatchEventHelper (Event.Mouse ev))]) ∧
      runClosure (F := Int) { directDispatcher with observer_ := some 9 }
          (Closure.NotifyButtonPress 3) = [Effect.OnWindowFocused 9 3] ∧
      runClosure (F := Int) { directDispatcher with observer_ := some 9 }
          (Closure.DispatchEventHelper (Event.Mouse ev)) = [Effect.Dispatch (Event.Mouse ev)] ∧
      ev.flags = 16 ∧
      ev.location = ⟨intCollaborators.toInt 10, intCollaborators.toInt 20⟩ ∧
      ev.root_location = ⟨intCollaborators.toInt 10, intCollaborators.toInt 20⟩ ∧
      ((1 : Int) = 1 → ev.type = EventType.ET_MOUSE_PRESSED) ∧
      ((1 : Int) ≠ 1 → ev.type = EventType.ET_MOUSE_RELEASED) :=
  ⟨by decide, by decide,
   C4_direct_button intCollaborators { directDispatcher with observer_ := some 9 } 9 0
     (by decide) (by decide) (by decide) (by decide) (by decide) 3 1 16 10 20⟩

/-! ## C6 -/

/-- C6 (as stated, refuted): on a dispatcher constructed in direct mode, with
the posting preconditions met, `OutputSizeChanged(800, 600)` posts no task at all,
and `WindowResized(3, 800, 600)` posts the observer task only, so no event is
handed to the local event dispatch. -/
theorem C6_direct_resize_delivers_no_event :
    directDispatcher.epoll_fd_ = 0 ∧ directDispatcher.ignore_task_ = false ∧
    IsRunning directDispatcher = true ∧ directDispatcher.loop_ = some 0 ∧
    notify intCollaborators directDispatcher (NotifierCall.OutputSize 800 600) =
      (directDispatcher, []) ∧
    notify intCollaborators directDispatcher (NotifierCall.Resized 3 800 600) =
      (directDispatcher, [Posted.onLoop 0 (Closure.NotifyWindowResized 3 800 600)]) ∧
    (∀ o : Nat, runPosted { directDispatcher with observer_ := some o }
        (notify intCollaborators directDispatcher (NotifierCall.Resized 3 800 600)).2 =
      [Effect.OnWindowResized o 3 800 600]) := by
  refine ⟨by decide, by decide, by decide, by decide, by decide, by decide, fun o => ?_⟩
  rfl

/-- C6 (amended): in direct mode with the posting preconditions met, `MotionNotify`,
`AxisNotify` and `KeyNotify` post exactly one task, which hands the locally
constructed event to the local event dispatch; `ButtonNotify`, `PointerEnter` and
`PointerLeave` post exactly two tasks, first the one that calls the observer (if
one is registered) with `OnWindowFocused`, `OnWindowEnter`, `OnWindowLeave`, then
the one that hands over the event; `WindowResized` posts exactly one task, which
calls `OnWindowResized` on the observer and delivers no event; `OutputSizeChanged`
posts nothing. -/
theorem C6_direct_delivery {F : Type} (c : Collaborators F) (d : WaylandDispatcher) (l : Nat)
    (h_epoll : d.epoll_fd_ = 0) (h_latch : d.ignore_task_ = false)
    (h_thread : IsRunning d = true) (h_loop : d.loop_ = some l) :
    (∀ x y : F, ∃ ev : Event,
      ev = Event.Mouse ⟨EventType.ET_MOUSE_MOVED, ⟨c.toInt x, c.toInt y⟩,
        ⟨c.toInt x, c.toInt y⟩, 0⟩ ∧
      notify c d (NotifierCall.Motion x y) =
        (d, [Posted.onLoop l (Closure.DispatchEventHelper ev)]) ∧
      runPosted d (notify c d (NotifierCall.Motion x y)).2 = [Effect.Dispatch ev]) ∧
    (∀ (handle : Nat) (state flags : Int) (x y : F), ∃ ev : Event,
      ev = Event.Mouse ⟨if state = 1 then EventType.ET_MOUSE_PRESSED
          else EventType.ET_MOUSE_RELEASED,
        ⟨c.toInt x, c.toInt y⟩, ⟨c.toInt x, c.toInt y⟩, flags⟩ ∧
      notify c d (NotifierCall.Button handle state flags x y) =
        (d, [Posted.onLoop l (Closure.NotifyButtonPress handle),
             Posted.onLoop l (Closure.DispatchEventHelper ev)]) ∧
      runPosted d (notify c d (NotifierCall.Button handle state flags x y)).2 =
        observerCall d (fun o => Effect.OnWindowFocused o handle) ++ [Effect.Dispatch ev]) ∧
    (∀ x y xoffset yoffset : F, ∃ ev : Event,
      ev = Event.MouseWheel ⟨EventType.ET_MOUSEWHEEL, ⟨c.toInt x, c.toInt y⟩,
        ⟨c.toInt x, c.toInt y⟩, 0⟩ (c.toInt xoffset) (c.toInt yoffset) ∧
      notify c d (NotifierCall.Axis x y xoffset yoffset) =
        (d, [Posted.onLoop l (Closure.DispatchEventHelper ev)]) ∧
      runPosted d (notify c d (NotifierCall.Axis x y xoffset yoffset)).2 =
        [Effect.Dispatch ev]) ∧
    (∀ (handle : Nat) (x y : F), ∃ ev : Event,
      ev = Event.Mouse ⟨EventType.ET_MOUSE_ENTERED, ⟨c.toInt x, c.toInt y⟩,
        ⟨c.toInt x, c.toInt y⟩, unsignedToInt handle⟩ ∧
      notify c d (NotifierCall.Enter handle x y) =
        (d, [Posted.onLoop l (Closure.NotifyPointerEnter handle),
             Posted.onLoop l (Closure.DispatchEventHelper ev)]) ∧
      runPosted d (notify c d (NotifierCall.Enter handle x y)).2 =
        observerCall d (fun o => Effect.OnWindowEnter o handle) ++ [Effect.Dispatch ev]) ∧
    (∀ (handle : Nat) (x y : F), ∃ ev : Event,
      ev = Event.Mouse ⟨EventType.ET_MOUSE_EXITED, ⟨c.toInt x, c.toInt y⟩,
        ⟨c.toInt x, c.toInt y⟩, 0⟩ ∧
      notify c d (NotifierCall.Leave handle x y) =
        (d, [Posted.onLoop l (Closure.NotifyPointerLeave handle),
             Posted.onLoop l (Closure.DispatchEventHelper ev)]) ∧
      runPosted d (notify c d (NotifierCall.Leave handle x y)).2 =
        observerCall d (fun o => Effect.OnWindowLeave o handle) ++ [Effect.Dispatch ev]) ∧
    (∀ state code modifiers : Nat, ∃ ev : Event,
      ev = Event.Key (if state ≠ 0 then EventType.ET_KEY_PRESSED
          else EventType.ET_KEY_RELEASED)
        (c.KeyboardCodeFromXKeysym code) (unsignedToInt modifiers) true ∧
      notify c d (NotifierCall.Key state code modifiers) =
        (d, [Posted.onLoop l (Closure.DispatchEventHelper ev)]) ∧
      runPosted d (notify c d (NotifierCall.Key state code modifiers)).2 =
        [Effect.Dispatch ev]) ∧
    (∀ handle width height : Nat,
      notify c d (NotifierCall.Resized handle width height) =
        (d, [Posted.onLoop l (Closure.NotifyWindowResized handle width height)]) ∧
      runPosted d (notify c d (NotifierCall.Resized handle width height)).2 =
        observerCall d (fun o => Effect.OnWindowResized o handle width height)) ∧
    (∀ width height : Nat,
      notify c d (NotifierCall.OutputSize width height) = (d, [])) := by
  have hp : ∀ task : Closure F, PostTaskOnMainLoop d task = (d, [Posted.onLoop l task]) :=
    fun task => PostTaskOnMainLoop_ready d task l h_latch h_thread h_loop
  refine ⟨fun x y => ⟨_, rfl, ?_⟩, fun handle state flags x y => ⟨_, rfl, ?_⟩,
    fun x y xoffset yoffset => ⟨_, rfl, ?_⟩, fun handle x y => ⟨_, rfl, ?_⟩,
    fun handle x y => ⟨_, rfl, ?_⟩, fun state code modifiers => ⟨_, rfl, ?_⟩,
    fun handle width height => ?_, fun width height => ?_⟩
  · simp [notify, MotionNotify, h_epoll, hp, runPosted, runClosure]
  · cases ho : d.observer_ <;>
      simp [notify, ButtonNotify, h_epoll, hp, Step.andThen, runPosted, runClosure,
        observerCall, ho]
  · simp [notify, AxisNotify, h_epoll, hp, runPosted, runClosure]
  · cases ho : d.observer_ <;>
      simp [notify, PointerEnter, h_epoll, hp, Step.andThen, runPosted, runClosure,
        observerCall, ho]
  · cases ho : d.observer_ <;>
      simp [notify, PointerLeave, h_epoll, hp, Step.andThen, runPosted, runClosure,
        observerCall, ho]
  · simp [notify, KeyNotify, h_epoll, hp, runPosted, runClosure]
  · cases ho : d.observer_ <;>
      simp [notify, WindowResized, h_epoll, hp, runPosted, runClosure, observerCall, ho]
  · simp [notify, OutputSizeChanged, h_epoll]

/-- C6, at a concrete input: key press of keysym 65 with no modifier on the
dispatcher constructed in direct mode. -/
theorem C6_direct_delivery_witness :
    (directDispatcher.epoll_fd_ = 0 ∧ directDispatcher.ignore_task_ = false ∧
      IsRunning directDispatcher = true ∧ directDispatcher.loop_ = some 0) ∧
    ∃ ev : Event,
      ev = Event.Key (if (1 : Nat) ≠ 0 then EventType.ET_KEY_PRESSED
          else EventType.ET_KEY_RELEASED)
        (intCollaborators.KeyboardCodeFromXKeysym 65) (unsignedToInt 0) true ∧
      notify intCollaborators directDispatcher (NotifierCall.Key 1 65 0) =
        (directDispatcher, [Posted.onLoop 0 (Closure.DispatchEventHelper ev)]) ∧
      runPosted directDispatcher
          (notify intCollaborators directDispatcher (NotifierCall.Key 1 65 0)).2 =
        [Effect.Dispatch ev] :=
  ⟨by decide,
   (C6_direct_delivery intCollaborators directDispatcher 0 (by decide) (by decide)
      (by decide) (by decide)).2.2.2.2.2.1 1 65 0⟩

/-! ## C7 -/

/-- A poll request on a running bridged dispatcher posts nothing and keeps it a
running bridged dispatcher. -/
theorem PostTask_Poll_running {F : Type} (d : WaylandDispatcher) (current : Option Nat)
    (h_run : d.running = true) :
    (PostTask (F := F) current d Task.Poll).2 = [] ∧
    (PostTask (F := F) current d Task.Poll).1.running = true ∧
    (PostTask (F := F) current d Task.Poll).1.epoll_fd_ = d.epoll_fd_ := by
  simp only [PostTask]
  split_ifs <;> simp_all

/-- C7: on a bridged dispatcher whose `running` flag is true, `PostTask(Poll)`
posts no task, so no `DisplayRun` reaches the dispatcher thread, and leaves a
bridged dispatcher whose flag is still true; hence any sequence of such requests
posts no task at all. -/
theorem C7_poll_while_running_posts_nothing {F : Type} (d : WaylandDispatcher)
    (h_epoll : d.epoll_fd_ ≠ 0) (h_run : d.running = true) :
    (∀ current : Option Nat,
      (PostTask (F := F) current d Task.Poll).2 = [] ∧
      (PostTask (F := F) current d Task.Poll).1.running = true ∧
      (PostTask (F := F) current d Task.Poll).1.epoll_fd_ ≠ 0) ∧
    (∀ requests : List (Option Nat),
      (pollRequests (F := F) d requests).2 = [] ∧
      (pollRequests (F := F) d requests).1.running = true ∧
      (pollRequests (F := F) d requests).1.epoll_fd_ ≠ 0 ∧
      Posted.onThread ThreadClosure.DisplayRun ∉ (pollRequests (F := F) d requests).2) := by
  have hseq : ∀ (requests : List (Option Nat)) (d1 : WaylandDispatcher),
      d1.epoll_fd_ ≠ 0 → d1.running = true →
      (pollRequests (F := F) d1 requests).2 = [] ∧
      (pollRequests (F := F) d1 requests).1.running = true ∧
      (pollRequests (F := F) d1 requests).1.epoll_fd_ ≠ 0 := by
    intro requests
    induction requests with
    | nil => intro d1 h0 h1; exact ⟨rfl, h1, h0⟩
    | cons current rest ih =>
      intro d1 h0 h1
      obtain ⟨hp, hr, he⟩ := PostTask_Poll_running (F := F) d1 current h1
      obtain ⟨ih1, ih2, ih3⟩ := ih _ (he ▸ h0) hr
      simp [pollRequests, Step.andThen, hp, ih1, ih2, ih3]
  refine ⟨fun current => ?_, fun requests => ?_⟩
  · obtain ⟨hp, hr, he⟩ := PostTask_Poll_running (F := F) d current h_run
    exact ⟨hp, hr, he ▸ h_epoll⟩
  · obtain ⟨h1, h2, h3⟩ := hseq requests d h_epoll h_run
    exact ⟨h1, h2, h3, by simp [h1]⟩

/-- C7, at a concrete input: two poll requests on the bridged dispatcher after
`DisplayRun` has set `running`. -/
theorem C7_poll_while_running_posts_nothing_witness :
    ((DisplayRun bridgedDispatcher []).1.epoll_fd_ ≠ 0 ∧
      (DisplayRun bridgedDispatcher []).1.running = true) ∧
    (pollRequests (F := Int) (DisplayRun bridgedDispatcher []).1 [some 0, some 0]).2 = [] :=
  ⟨by decide,
   ((C7_poll_while_running_posts_nothing (F := Int) (DisplayRun bridgedDispatcher []).1
      (by decide) (by decide)).2 [some 0, some 0]).1⟩

/-! ## C8 -/

/-- The dispatcher constructed on a non-zero socket descriptor. -/
theorem create_with_socket (s : OsScript) (current : Option Nat) (started : Bool) (fd : Int)
    (h_fd : fd ≠ 0) :
    (WaylandDispatcher.create s current started fd).1 =
      { ignore_task_ := false, running := false, loop_ := current,
        epoll_fd_ := (osEpollCreateCloExec s).1, display_fd_ := fd, observer_ := none,
        thread_running_ := started } := by
  simp [WaylandDispatcher.create, h_fd]

/-- C8 (as stated, refuted): constructing a dispatcher on socket 5 when
`epoll_create1` fails with `ENFILE` makes `osEpollCreateCloExec` return -1 and
leaves `epoll_fd_` at -1, not at 0; the notifiers then take the bridged branch:
`MotionNotify(1, 2)` posts nothing while `running` is false and posts
`SendMotionNotify(1, 2)`, not a local event, once `running` is set. -/
theorem C8_failed_create_leaves_minus_one :
    (osEpollCreateCloExec osNoDescriptors).1 = -1 ∧
    (WaylandDispatcher.create osNoDescriptors (some 0) true 5).1.epoll_fd_ = -1 ∧
    (WaylandDispatcher.create osNoDescriptors (some 0) true 5).1.epoll_fd_ ≠ 0 ∧
    (notify intCollaborators (WaylandDispatcher.create osNoDescriptors (some 0) true 5).1
      (NotifierCall.Motion 1 2)).2 = [] ∧
    (notify intCollaborators
      { (WaylandDispatcher.create osNoDescriptors (some 0) true 5).1 with running := true }
      (NotifierCall.Motion 1 2)).2 = [Posted.onLoop 0 (Closure.SendMotionNotify 1 2)] := by
  decide

/-- C8 (amended): for every construction with a non-zero socket descriptor,
`epoll_fd_` is the value `osEpollCreateCloExec` returned; when that is the failure
value -1, `epoll_fd_` is -1, which is non-zero, so every input notifier takes the
bridged-mode branch: on the constructed dispatcher (`running` false) it posts
nothing, and with `running` set, the thread started and a target loop present it
posts one task that sends the matching message. -/
theorem C8_failed_create_selects_bridged {F : Type} (c : Collaborators F) (s : OsScript)
    (current : Option Nat) (started : Bool) (fd : Int)
    (h_fd : fd ≠ 0) (h_fail : (osEpollCreateCloExec s).1 = -1) :
    (WaylandDispatcher.create s current started fd).1.epoll_fd_ = (osEpollCreateCloExec s).1 ∧
    (WaylandDispatcher.create s current started fd).1.epoll_fd_ = -1 ∧
    (WaylandDispatcher.create s current started fd).1.epoll_fd_ ≠ 0 ∧
    (∀ n : NotifierCall F,
      notify c (WaylandDispatcher.create s current started fd).1 n =
        ((WaylandDispatcher.create s current started fd).1, [])) ∧
    (∀ (l : Nat) (n : NotifierCall F), current = some l → started = true →
      ∃ task : Closure F,
        notify c { (WaylandDispatcher.create s current started fd).1 with running := true } n =
          ({ (WaylandDispatcher.create s current started fd).1 with running := true },
            [Posted.onLoop l task]) ∧
        runClosure
          { (WaylandDispatcher.create s current started fd).1 with running := true } task =
          [Effect.Send (matchingMessage n)]) := by
  have hd := create_with_socket s current started fd h_fd
  have he : (WaylandDispatcher.create s current started fd).1.epoll_fd_ =
      (osEpollCreateCloExec s).1 := by
    rw [hd]
  have hm : (WaylandDispatcher.create s current started fd).1.epoll_fd_ = -1 := by
    rw [he, h_fail]
  have hne : (WaylandDispatcher.create s current started fd).1.epoll_fd_ ≠ 0 := by
    rw [hm]; decide
  refine ⟨he, hm, hne, fun n => ?_, fun l n hc hs => ?_⟩
  · exact notify_bridged_not_running c _ hne (by rw [hd]) n
  · subst hc hs
    exact notify_bridged_running c
      { (WaylandDispatcher.create s (some l) true fd).1 with running := true } l
      hne (by rw [hd]) (by rw [hd]; rfl) (by rw [hd]) rfl n

/-- C8, at a concrete input: socket 5 with `epoll_create1` failing. -/
theorem C8_failed_create_selects_bridged_witness :
    ((5 : Int) ≠ 0 ∧ (osEpollCreateCloExec osNoDescriptors).1 = -1) ∧
    (WaylandDispatcher.create osNoDescriptors (some 0) true 5).1.epoll_fd_ = -1 :=
  ⟨by decide,
   (C8_failed_create_selects_bridged intCollaborators osNoDescriptors (some 0) true 5
      (by decide) (by decide)).2.1⟩

/-! ## C10 -/

/-- The calls of `HandleFlush` over a script of non-zero results followed by a
zero. -/
theorem HandleFlush_trace (nz rest : List Int) (h : ∀ r ∈ nz, r ≠ 0) :
    HandleFlush (nz ++ 0 :: rest) =
      some (drainRounds nz.length ++
        [WlCall.wl_display_prepare_read, WlCall.wl_display_flush,
         WlCall.wl_display_read_events, WlCall.wl_display_dispatch_pending]) := by
  induction nz with
  | nil => simp [HandleFlush, drainRounds]
  | cons r rs ih =>
    have hr : r ≠ 0 := h r (List.mem_cons_self r rs)
    have hrs : ∀ x ∈ rs, x ≠ 0 := fun x hx => h x (List.mem_cons_of_mem r hx)
    simp [HandleFlush, drainRounds, hr, ih hrs]

/-- No round of draining reads events or flushes. -/
theorem drainRounds_counts (k : Nat) :
    (drainRounds k).count WlCall.wl_display_read_events = 0 ∧
    (drainRounds k).count WlCall.wl_display_flush = 0 ∧
    (drainRounds k).count WlCall.wl_display_prepare_read = k ∧
    (drainRounds k).count WlCall.wl_display_dispatch_pending = k := by
  induction k with
  | zero => simp [drainRounds]
  | succ k ih =>
    obtain ⟨h1, h2, h3, h4⟩ := ih
    simp [drainRounds, List.count_cons, h1, h2, h3, h4]

/-- C10: over prepare-read results made of `k` non-zero values followed by a
zero, `HandleFlush` returns, and its calls are exactly (prepare-read,
dispatch-pending) `k` times, then prepare-read, flush, read-events,
dispatch-pending; read-events and flush are each called exactly once, flush
before read-events, and both after the prepare-read that returned zero. -/
theorem C10_HandleFlush_call_order (nz rest : List Int) (h : ∀ r ∈ nz, r ≠ 0) :
    ∃ trace : List WlCall,
      HandleFlush (nz ++ 0 :: rest) = some trace ∧
      trace = drainRounds nz.length ++
        [WlCall.wl_display_prepare_read, WlCall.wl_display_flush,
         WlCall.wl_display_read_events, WlCall.wl_display_dispatch_pending] ∧
      trace.count WlCall.wl_display_read_events = 1 ∧
      trace.count WlCall.wl_display_flush = 1 ∧
      trace.count WlCall.wl_display_prepare_read = nz.length + 1 ∧
      trace.count WlCall.wl_display_dispatch_pending = nz.length + 1 := by
  obtain ⟨h1, h2, h3, h4⟩ := drainRounds_counts nz.length
  refine ⟨_, HandleFlush_trace nz rest h, rfl, ?_, ?_, ?_, ?_⟩ <;>
    simp [List.count_append, List.count_cons, h1, h2, h3, h4]

/-- C10, at a concrete input: prepare-read returns -1 twice, then 0. -/
theorem C10_HandleFlush_call_order_witness :
    (∀ r ∈ ([-1, -1] : List Int), r ≠ 0) ∧
    HandleFlush [-1, -1, 0] =
      some [WlCall.wl_display_prepare_read, WlCall.wl_display_dispatch_pending,
            WlCall.wl_display_prepare_read, WlCall.wl_display_dispatch_pending,
            WlCall.wl_display_prepare_read, WlCall.wl_display_flush,
            WlCall.wl_display_read_events, WlCall.wl_display_dispatch_pending] :=
  ⟨by decide, by
    obtain ⟨trace, h1, h2, _⟩ := C10_HandleFlush_call_order [-1, -1] [] (by decide)
    rw [h2] at h1
    exact h1⟩

/-! ## C5 and C9: the pump loop -/

/-- The `for` loop over a list of ready events that starts with events which do
not make the function return. -/
theorem forEachReady_append (d : WaylandDispatcher) (pre es : List ReadyEvent)
    (h : (forEachReady d pre).2 = false) :
    forEachReady d (pre ++ es) =
      ((forEachReady d pre).1 ++ (forEachReady d es).1, (forEachReady d es).2) := by
  induction pre with
  | nil => simp [forEachReady]
  | cons e pre ih =>
    simp only [forEachReady, List.cons_append] at h ⊢
    by_cases he : (handleReady d e).2 = true
    · simp [he] at h
    · simp only [he, if_false] at h ⊢
      simp [ih h, List.append_assoc]

/-- A ready event with the error or hangup bit makes the function return at once. -/
theorem handleReady_error (d : WaylandDispatcher) (e : ReadyEvent)
    (h : e.events &&& EPOLLERR ≠ 0 ∨ e.events &&& EPOLLHUP ≠ 0) :
    handleReady d e = ([], true) := by
  simp only [handleReady, if_pos h]

/-- A ready event that is writable only, whose retried flush would block, makes
one call, the flush, and does not make the function return. -/
theorem handleReady_would_block (d : WaylandDispatcher) (e : ReadyEvent)
    (h_err : e.events &&& EPOLLERR = 0) (h_hup : e.events &&& EPOLLHUP = 0)
    (h_in : e.events &&& EPOLLIN = 0) (h_out : e.events &&& EPOLLOUT ≠ 0)
    (h_ret : e.flush.ret = -1) (h_errno : e.flush.errno = EAGAIN) :
    handleReady d e = ([WlCall.wl_display_flush], false) := by
  simp [handleReady, h_err, h_hup, h_in, h_out, h_ret, h_errno]

/-- C5: in an iteration of `DisplayRun` that reaches `epoll_wait`, after ready
events `pre` that did not end the function: (i) a ready event with the error or
hangup bit set, whatever its other bits, ends the function there, the calls made
being those up to `pre` only, with no further dispatch, flush, `epoll_ctl` or
`epoll_wait`, whatever events and iterations follow in the script; (ii) a ready
event that is writable only and whose retried flush returns -1 with `EAGAIN` makes
just the flush call, so no `epoll_ctl` is issued and the registered interest is
kept, and the function does not return: the `for` loop goes on with the events
that follow, and after the last event the `while` loop goes on with the next
iteration. -/
theorem C5_pump_loop_error_and_would_block (d : WaylandDispatcher) (f : FlushResult)
    (pre post : List ReadyEvent) (its : List Iteration)
    (h_flush : (flushBeforeWait d f).2 = false) (h_pre : (forEachReady d pre).2 = false) :
    (∀ e : ReadyEvent, (e.events &&& EPOLLERR ≠ 0 ∨ e.events &&& EPOLLHUP ≠ 0) →
      handleReady d e = ([], true) ∧
      forEachReady d (pre ++ e :: post) = ((forEachReady d pre).1, true) ∧
      displayLoop d (⟨false, f, pre ++ e :: post⟩ :: its) =
        (d, WlCall.wl_display_dispatch_pending :: (flushBeforeWait d f).1 ++
              [WlCall.epoll_wait d.epoll_fd_] ++ (forEachReady d pre).1,
          Outcome.exited)) ∧
    (∀ e : ReadyEvent, e.events &&& EPOLLERR = 0 → e.events &&& EPOLLHUP = 0 →
      e.events &&& EPOLLIN = 0 → e.events &&& EPOLLOUT ≠ 0 →
      e.flush.ret = -1 → e.flush.errno = EAGAIN →
      handleReady d e = ([WlCall.wl_display_flush], false) ∧
      (∀ interest : Nat, registeredInterest interest (handleReady d e).1 = interest) ∧
      forEachReady d (pre ++ e :: post) =
        ((forEachReady d pre).1 ++ WlCall.wl_display_flush :: (forEachReady d post).1,
          (forEachReady d post).2) ∧
      displayLoop d (⟨false, f, pre ++ [e]⟩ :: its) =
        ((displayLoop d its).1,
          WlCall.wl_display_dispatch_pending :: (flushBeforeWait d f).1 ++
            [WlCall.epoll_wait d.epoll_fd_] ++ (forEachReady d pre).1 ++
            [WlCall.wl_display_flush] ++ (displayLoop d its).2.1,
          (displayLoop d its).2.2)) := by
  constructor
  · intro e he
    have h1 := handleReady_error d e he
    have h2 : forEachReady d (pre ++ e :: post) = ((forEachReady d pre).1, true) := by
      rw [forEachReady_append d pre _ h_pre]
      simp [forEachReady, h1]
    refine ⟨h1, h2, ?_⟩
    simp [displayLoop, h_flush, h2]
  · intro e h_err h_hup h_in h_out h_ret h_errno
    have h1 := handleReady_would_block d e h_err h_hup h_in h_out h_ret h_errno
    have h2 : ∀ es : List ReadyEvent, forEachReady d (pre ++ e :: es) =
        ((forEachReady d pre).1 ++ WlCall.wl_display_flush :: (forEachReady d es).1,
          (forEachReady d es).2) := by
      intro es
      rw [forEachReady_append d pre _ h_pre]
      simp [forEachReady, h1]
    refine ⟨h1, fun interest => ?_, h2 post, ?_⟩
    · rw [h1]; rfl
    · simp [displayLoop, h_flush, h2 [], forEachReady, List.append_assoc]

/-- C5, at a concrete input: on the bridged dispatcher with `running` set, an
iteration whose flush succeeds and whose `epoll_wait` reports one event. With the
event `EPOLLIN | EPOLLERR` the function ends right after `epoll_wait`; with the
event `EPOLLOUT` and a flush that would block the loop reaches the following
iteration, whose first call is `wl_display_dispatch_pending`. -/
theorem C5_pump_loop_error_and_would_block_witness :
    ((flushBeforeWait (DisplayRun bridgedDispatcher []).1 ⟨0, 0⟩).2 = false ∧
      (forEachReady (DisplayRun bridgedDispatcher []).1 []).2 = false) ∧
    (DisplayRun bridgedDispatcher
        [⟨false, ⟨0, 0⟩, [⟨EPOLLIN ||| EPOLLERR, 0, ⟨0, 0⟩⟩, ⟨EPOLLIN, 0, ⟨0, 0⟩⟩]⟩,
         ⟨false, ⟨0, 0⟩, []⟩]).2 =
      ([WlCall.wl_display_dispatch_pending, WlCall.wl_display_flush, WlCall.epoll_wait 7],
        Outcome.exited) ∧
    (DisplayRun bridgedDispatcher
        [⟨false, ⟨0, 0⟩, [⟨EPOLLOUT, 0, ⟨-1, EAGAIN⟩⟩]⟩, ⟨true, ⟨0, 0⟩, []⟩]).2 =
      ([WlCall.wl_display_dispatch_pending, WlCall.wl_display_flush, WlCall.epoll_wait 7,
        WlCall.wl_display_flush, WlCall.wl_display_dispatch_pending],
        Outcome.exited) ∧
    displayLoop (DisplayRun bridgedDispatcher []).1
        [⟨false, ⟨0, 0⟩, [] ++ [⟨EPOLLOUT, 0, ⟨-1, EAGAIN⟩⟩]⟩, ⟨true, ⟨0, 0⟩, []⟩] =
      ((displayLoop (DisplayRun bridgedDispatcher []).1 [⟨true, ⟨0, 0⟩, []⟩]).1,
        WlCall.wl_display_dispatch_pending ::
            (flushBeforeWait (DisplayRun bridgedDispatcher []).1 ⟨0, 0⟩).1 ++
          [WlCall.epoll_wait (DisplayRun bridgedDispatcher []).1.epoll_fd_] ++
          (forEachReady (DisplayRun bridgedDispatcher []).1 []).1 ++
          [WlCall.wl_display_flush] ++
          (displayLoop (DisplayRun bridgedDispatcher []).1 [⟨true, ⟨0, 0⟩, []⟩]).2.1,
        (displayLoop (DisplayRun bridgedDispatcher []).1 [⟨true, ⟨0, 0⟩, []⟩]).2.2) :=
  ⟨by decide, by decide, by decide,
   ((C5_pump_loop_error_and_would_block (DisplayRun bridgedDispatcher []).1 ⟨0, 0⟩ [] []
      [⟨true, ⟨0, 0⟩, []⟩] (by decide) (by decide)).2 ⟨EPOLLOUT, 0, ⟨-1, EAGAIN⟩⟩
      (by decide) (by decide) (by decide) (by decide) rfl rfl).2.2.2⟩

/-- C9 (as stated, refuted): for a writable ready event whose retried flush
returns 5, a success value (5 bytes sent), the body makes the flush call only: no
`epoll_ctl` is issued, and an interest that had the write bit still has it. -/
theorem C9_positive_flush_keeps_write_interest :
    (ReadyEvent.mk EPOLLOUT 0 ⟨5, 0⟩).events &&& EPOLLOUT ≠ 0 ∧
    (ReadyEvent.mk EPOLLOUT 0 ⟨5, 0⟩).flush.ret ≥ 0 ∧
    handleReady bridgedDispatcher ⟨EPOLLOUT, 0, ⟨5, 0⟩⟩ = ([WlCall.wl_display_flush], false) ∧
    registeredInterest (EPOLLIN ||| EPOLLOUT ||| EPOLLERR ||| EPOLLHUP)
      (handleReady bridgedDispatcher ⟨EPOLLOUT, 0, ⟨5, 0⟩⟩).1 =
      EPOLLIN ||| EPOLLOUT ||| EPOLLERR ||| EPOLLHUP := by
  decide

/-- C9 (amended): in `DisplayRun`, for a ready event that is writable and not
error or hangup, once the retried flush is reached (the event is not readable, or
its dispatch did not return -1): if the flush returns exactly 0, the interest of
the descriptor is modified to exactly `EPOLLIN | EPOLLERR | EPOLLHUP`, which has
no write bit, and the loop goes on; if it returns -1 with an `errno` other than
`EAGAIN` the function returns; for every other result, a positive byte count or
-1 with `EAGAIN`, no `epoll_ctl` is issued and the loop goes on. -/
theorem C9_retried_flush (d : WaylandDispatcher) (e : ReadyEvent)
    (h_out : e.events &&& EPOLLOUT ≠ 0)
    (h_err : e.events &&& EPOLLERR = 0) (h_hup : e.events &&& EPOLLHUP = 0)
    (h_in : e.events &&& EPOLLIN ≠ 0 → e.dispatch ≠ -1) :
    (e.flush.ret = 0 →
      handleReady d e =
        ((if e.events &&& EPOLLIN ≠ 0 then [WlCall.wl_display_dispatch] else []) ++
          [WlCall.wl_display_flush,
           WlCall.epoll_ctl_mod d.epoll_fd_ d.display_fd_ (EPOLLIN ||| EPOLLERR ||| EPOLLHUP)],
          false)) ∧
    (e.flush.ret = -1 → e.flush.errno ≠ EAGAIN →
      handleReady d e =
        ((if e.events &&& EPOLLIN ≠ 0 then [WlCall.wl_display_dispatch] else []) ++
          [WlCall.wl_display_flush], true)) ∧
    (e.flush.ret ≠ 0 → (e.flush.ret = -1 → e.flush.errno = EAGAIN) →
      handleReady d e =
        ((if e.events &&& EPOLLIN ≠ 0 then [WlCall.wl_display_dispatch] else []) ++
          [WlCall.wl_display_flush], false)) ∧
    (EPOLLIN ||| EPOLLERR ||| EPOLLHUP) &&& EPOLLOUT = 0 := by
  refine ⟨fun h0 => ?_, fun h1 h2 => ?_, fun h0 h1 => ?_, by decide⟩
  · by_cases hi : e.events &&& EPOLLIN = 0
    · simp [handleReady, h_err, h_hup, h_out, hi, h0]
    · simp [handleReady, h_err, h_hup, h_out, hi, h0, h_in hi]
  · by_cases hi : e.events &&& EPOLLIN = 0
    · simp [handleReady, h_err, h_hup, h_out, hi, h1, h2]
    · simp [handleReady, h_err, h_hup, h_out, hi, h1, h2, h_in hi]
  · by_cases hi : e.events &&& EPOLLIN = 0
    · by_cases hr : e.flush.ret = -1
      · simp [handleReady, h_err, h_hup, h_out, hi, hr, h1 hr]
      · simp [handleReady, h_err, h_hup, h_out, hi, h0, hr]
    · by_cases hr : e.flush.ret = -1
      · simp [handleReady, h_err, h_hup, h_out, hi, hr, h1 hr, h_in hi]
      · simp [handleReady, h_err, h_hup, h_out, hi, h0, hr, h_in hi]

/-- C9, at a concrete input: a ready event `EPOLLIN | EPOLLOUT` whose dispatch
returns 0 and whose retried flush returns 0. -/
theorem C9_retried_flush_witness :
    ((ReadyEvent.mk (EPOLLIN ||| EPOLLOUT) 0 ⟨0, 0⟩).events &&& EPOLLOUT ≠ 0 ∧
      (ReadyEvent.mk (EPOLLIN ||| EPOLLOUT) 0 ⟨0, 0⟩).events &&& EPOLLERR = 0 ∧
      (ReadyEvent.mk (EPOLLIN ||| EPOLLOUT) 0 ⟨0, 0⟩).events &&& EPOLLHUP = 0) ∧
    handleReady bridgedDispatcher ⟨EPOLLIN ||| EPOLLOUT, 0, ⟨0, 0⟩⟩ =
      ((if (ReadyEvent.mk (EPOLLIN ||| EPOLLOUT) 0 ⟨0, 0⟩).events &&& EPOLLIN ≠ 0
          then [WlCall.wl_display_dispatch] else []) ++
        [WlCall.wl_display_flush,
         WlCall.epoll_ctl_mod bridgedDispatcher.epoll_fd_ bridgedDispatcher.display_fd_
           (EPOLLIN ||| EPOLLERR ||| EPOLLHUP)],
        false) :=
  ⟨by decide,
   (C9_retried_flush bridgedDispatcher ⟨EPOLLIN ||| EPOLLOUT, 0, ⟨0, 0⟩⟩ (by decide)
      (by decide) (by decide) (by decide)).1 rfl⟩

end ozonewayland
